import Mathlib

/-!
Verification of `cookiecutter/hooks.py`: hook discovery (`find_hooks`),
script execution (`run_script`), templated execution
(`run_script_with_context`) and orchestration (`run_hook`).

The Python module is shallowly embedded.  External effects (the file
system, `subprocess.Popen`, `tempfile.NamedTemporaryFile`) are passed in
explicitly as data; exceptions become `Except PyError`.  Side effects
performed by the code (making the script executable, creating and writing
the temporary file, launching the child process) are recorded in an
explicit `Effect` trace so that "no-op" claims can be stated.
-/

namespace Hooks

/-- Errors that can escape the module.  `failedHook` embeds
`cookiecutter.exceptions.FailedHookException`; `templateError` embeds the
Jinja2 `TemplateError` hierarchy (including `TemplateSyntaxError` and
`UndefinedError`); `osError` embeds a Python `OSError` with its optional
`errno` and its string description (`str(oe)`).  `discoveryError` embeds
the typed "DiscoveryError" that the specification's error taxonomy
describes for discovery failures; the source code never constructs such a
value — the constructor exists only so that the specification's claim
about discovery failures can be stated and compared with what the code
does. -/
inductive PyError where
  | failedHook (msg : String)
  | templateError (msg : String)
  | osError (eno : Option Nat) (desc : String)
  | discoveryError (msg : String)
  deriving DecidableEq, Repr

/-- `errno.ENOEXEC` ("Exec format error"), value 8 on Linux and macOS. -/
def ENOEXEC : Nat := 8

/-- `EXIT_SUCCESS = 0` from the source (exit statuses are Python ints;
`Popen.wait` can return negative values for signals, so `Int`). -/
def EXIT_SUCCESS : Int := 0

/-- The `_HOOKS` list from the source: the recognized hook names. -/
def _HOOKS : List String := ["pre_gen_project", "post_gen_project"]

/-! ### os.path helpers (POSIX semantics, as used by `find_hooks`) -/

/-- Index of the last occurrence of `c` in `l`, or `-1` when absent —
the contract of Python's `str.rfind`. -/
def rfind (l : List Char) (c : Char) : Int :=
  match l.reverse.findIdx? (fun d => d = c) with
  | none => -1
  | some j => (l.length : Int) - 1 - j

/-- Model of `posixpath.basename`: everything after the last slash. -/
def basename (p : String) : String :=
  ⟨p.data.drop (rfind p.data '/' + 1).toNat⟩

/-- Model of `posixpath.splitext` (CPython `genericpath._splitext` with
separator `'/'` and extension separator `'.'`): split at the last dot that
comes after the last slash, unless every character between them is a dot
(so that dotfiles such as `.bashrc` keep no extension). -/
def splitext (p : String) : String × String :=
  let l := p.data
  let sepIndex := rfind l '/'
  let dotIndex := rfind l '.'
  if sepIndex < dotIndex then
    let filenameIndex := (sepIndex + 1).toNat
    let dotN := dotIndex.toNat
    if ((l.drop filenameIndex).take (dotN - filenameIndex)).all (fun c => c = '.') then
      (p, "")
    else
      (⟨l.take dotN⟩, ⟨l.drop dotN⟩)
  else
    (p, "")

/-- Python `str.startswith`, on the underlying character list. -/
def startswith (s pre : String) : Bool :=
  pre.data.isPrefixOf s.data

/-- Python `str.endswith`, on the underlying character list. -/
def endswith (s suffix : String) : Bool :=
  suffix.data.isSuffixOf s.data

/-- Model of `posixpath.join` for two components, as in
`os.path.join('hooks', f)`. -/
def joinPath (a b : String) : String :=
  if startswith b "/" then b
  else if a = "" || endswith a "/" then a ++ b
  else a ++ "/" ++ b

/-- Model of `os.path.abspath`: a relative path is resolved against the
current working directory.  Path normalization (collapsing `.` and `..`)
is not modelled; the model is accurate for already-normalized inputs. -/
def abspath (cwd p : String) : String :=
  if startswith p "/" then p else joinPath cwd p

/-- The absolute path `find_hooks` records for a directory entry `name`
of the `hooks` directory: `os.path.abspath(os.path.join('hooks', name))`. -/
def hookPath (cwd name : String) : String :=
  abspath cwd (joinPath "hooks" name)

/-! ### File system state and `find_hooks` -/

/-- One immediate entry of the `hooks` directory as `os.listdir` reports
it: its name, plus whether the entry is a regular file (information the
real file system has but which `find_hooks` never consults). -/
structure FSEntry where
  name : String
  isFile : Bool
  deriving DecidableEq, Repr

/-- The part of the file-system state `find_hooks` observes: whether the
current working directory contains a subdirectory literally named
`hooks` (`os.path.isdir('hooks')`), the outcome of enumerating it
(`os.listdir('hooks')`, which can raise an `OSError`), and the current
working directory used by `os.path.abspath`. -/
structure FS where
  hooksIsDir : Bool
  listHooks : Except PyError (List FSEntry)
  cwd : String

/-- Python dict assignment `r[k] = v` on an insertion-ordered
association list: overwrite an existing key in place, else append. -/
def dictInsert (d : List (String × String)) (k v : String) : List (String × String) :=
  if d.any (fun p => p.1 = k) then
    d.map (fun p => if p.1 = k then (k, v) else p)
  else
    d ++ [(k, v)]

/-- Python `dict.get`: the value bound to `k`, if any. -/
def dictGet (d : List (String × String)) (k : String) : Option String :=
  (d.find? (fun p => p.1 = k)).map (fun p => p.2)

/-- The `for f in os.listdir(hooks_dir)` loop of `find_hooks`: for each
entry, strip the extension from its base name and, when the stem is a
recognized hook name, record the entry's absolute path under that stem. -/
def registerHooks (cwd : String) : List FSEntry → List (String × String) → List (String × String)
  | [], r => r
  | ent :: es, r =>
    let b := (splitext (basename ent.name)).1
    registerHooks cwd es (if b ∈ _HOOKS then dictInsert r b (hookPath cwd ent.name) else r)

/-- `find_hooks()`: with no `hooks` subdirectory the registry is empty;
otherwise every listed entry whose extension-stripped base name is a
recognized hook name is recorded with its absolute path.  An `OSError`
raised by `os.listdir` propagates unchanged (the loop is not guarded). -/
def find_hooks (fs : FS) : Except PyError (List (String × String)) :=
  if !fs.hooksIsDir then .ok []
  else
    match fs.listHooks with
    | .error e => .error e
    | .ok entries => .ok (registerHooks fs.cwd entries [])

/-! ### Script execution (`run_script`) -/

/-- The arguments the code hands to `subprocess.Popen`: the command list,
the `shell=` flag and the `cwd=` working directory. -/
structure Launch where
  command : List String
  shell : Bool
  cwd : String
  deriving DecidableEq, Repr

/-- The operating system's response to a `Popen` call followed by
`proc.wait()`: either the child ran and exited with a status, or the
launch raised an `OSError` carrying an optional `errno` and a
description (`str(oe)`). -/
inductive LaunchResult where
  | launched (exit_status : Int)
  | launchError (eno : Option Nat) (desc : String)
  deriving DecidableEq, Repr

/-- Side effects the module performs, in order: `utils.make_executable`
on the script, creation of the named temporary file, the write of the
rendered output into it, and the `Popen` call itself. -/
inductive Effect where
  | madeExecutable (path : String)
  | tempCreated (path : String)
  | tempWrote (path : String) (content : String)
  | launched (l : Launch)
  deriving DecidableEq, Repr

/-- Whether an effect is a child-process launch. -/
def Effect.isLaunch : Effect → Bool
  | .launched _ => true
  | _ => false

/-- The `Launch` that `run_script` builds: `run_thru_shell` is
`sys.platform.startswith('win')`; a path ending in `.py` is run as
`[sys.executable, script_path]`, anything else as `[script_path]`. -/
def popenLaunch (platform sysExecutable script_path cwd : String) : Launch :=
  { command := if endswith script_path ".py" then [sysExecutable, script_path] else [script_path]
  , shell := startswith platform "win"
  , cwd := cwd }

/-- The message `"Hook script failed (exit status: %d)" % exit_status`. -/
def exitStatusMsg (exit_status : Int) : String :=
  "Hook script failed (exit status: " ++ toString exit_status ++ ")"

/-- The message raised when the launch fails with `errno.ENOEXEC`. -/
def shebangMsg : String :=
  "Hook script failed, might be an empty file or missing a shebang"

/-- The message `"Hook script failed (error: %s)" % oe` for any other
`OSError`, where `desc` stands for `str(oe)`. -/
def launchErrorMsg (desc : String) : String :=
  "Hook script failed (error: " ++ desc ++ ")"

/-- The `try`/`except` block of `run_script`: a non-zero exit status
raises `FailedHookException` with the status in the message; an
`OSError` with `errno == errno.ENOEXEC` raises the empty-file/shebang
message; any other `OSError` raises the generic message wrapping the
error's description. -/
def run_scriptResult : LaunchResult → Except PyError Unit
  | .launched exit_status =>
    if exit_status ≠ EXIT_SUCCESS then
      .error (.failedHook (exitStatusMsg exit_status))
    else
      .ok ()
  | .launchError eno desc =>
    if eno = some ENOEXEC then
      .error (.failedHook shebangMsg)
    else
      .error (.failedHook (launchErrorMsg desc))

/-- `run_script(script_path, cwd)`: make the script executable, launch
it (through the shell on Windows-style platforms), wait, and translate a
non-zero exit status or an `OSError` into a `FailedHookException`.  The
child process's behaviour is supplied by `launch`; the effects performed
(`utils.make_executable`, then the `Popen` attempt) are returned
alongside the result. -/
def run_script (platform sysExecutable script_path cwd : String)
    (launch : Launch → LaunchResult) : Except PyError Unit × List Effect :=
  let L := popenLaunch platform sysExecutable script_path cwd
  (run_scriptResult (launch L), [.madeExecutable script_path, .launched L])

/-! ### Template rendering (`jinja2.Template(contents).render(**context)`)

The script's text is represented as the list of lexical elements a Jinja
template is made of: literal chunks (text containing no template
delimiters), substitution placeholders, and an element standing for a
syntactically invalid template fragment.  The semantics embedded below is
Jinja2's with `Template`'s default environment, as invoked at line 105 of
the source:

* a syntactically invalid fragment raises `TemplateSyntaxError` (a
  `TemplateError`) when `Template(contents)` is constructed;
* a placeholder whose variable is bound in the context renders as the
  bound value (context values are taken to be strings, so `str(value)`
  is the value itself);
* a placeholder whose variable is NOT bound renders as the default
  `jinja2.Undefined`, whose string form is the empty string — no error
  is raised;
* `keep_trailing_newline` defaults to `False`: one trailing newline, if
  present, is stripped from the end of the template source before
  rendering. -/

/-- One lexical element of a hook script seen as a Jinja template. -/
inductive Tok where
  | lit (s : String)
  | var (name : String)
  | malformed
  deriving DecidableEq, Repr

/-- The render context: the template variables, as string-to-string
bindings (`render(**context)`). -/
def ctxLookup (ctx : List (String × String)) (n : String) : Option String :=
  (ctx.find? (fun p => p.1 = n)).map (fun p => p.2)

/-- Drop a single trailing newline, as Jinja's lexer does to the
template source when `keep_trailing_newline` is `False` (the default). -/
def stripTrailingNewline (s : String) : String :=
  if endswith s "\n" then ⟨s.data.take (s.data.length - 1)⟩ else s

/-- Apply the default `keep_trailing_newline=False` treatment to the
template source: the strip affects the final literal chunk only. -/
def stripTemplate : List Tok → List Tok
  | [] => []
  | t :: ts =>
    match ts with
    | [] =>
      match t with
      | .lit s => [.lit (stripTrailingNewline s)]
      | u => [u]
    | t2 :: ts2 => t :: stripTemplate (t2 :: ts2)

/-- The message of the `TemplateSyntaxError` raised for an invalid
template (the model keeps a single representative message). -/
def templateErrMsg : String := "TemplateSyntaxError"

/-- Evaluate the (already newline-stripped) template elements:
concatenate literal chunks and substituted values, an unbound variable
contributing the empty string, a malformed fragment raising. -/
def renderToks (ctx : List (String × String)) : List Tok → Except PyError String
  | [] => .ok ""
  | .lit s :: ts => (renderToks ctx ts).map (fun r => s ++ r)
  | .var n :: ts => (renderToks ctx ts).map (fun r => (ctxLookup ctx n).getD "" ++ r)
  | .malformed :: _ => .error (.templateError templateErrMsg)

/-- `Template(contents).render(**context)` with the default
environment. -/
def renderTemplate (ctx : List (String × String)) (ts : List Tok) : Except PyError String :=
  renderToks ctx (stripTemplate ts)

/-! ### Templated execution and orchestration -/

/-- The whole environment a hook run interacts with: the file-system
state discovery sees, the contents of script files (as template
elements), the base name `tempfile.NamedTemporaryFile` generates (the
original script's extension is appended to it), the operating system's
response to process launches, `sys.platform` and `sys.executable`. -/
structure World where
  fs : FS
  readFile : String → List Tok
  tempBase : String
  launch : Launch → LaunchResult
  platform : String
  sysExecutable : String

/-- `run_script_with_context(script_path, cwd, context)`: read the
script, create a temporary file carrying the script's extension, render
the contents against the context into it, and run the temporary file.
The temporary file is created before rendering (the `with` block opens
it first), so a `TemplateError` leaves an empty temporary file behind
and nothing is executed. -/
def run_script_with_context (w : World) (script_path cwd : String)
    (context : List (String × String)) : Except PyError Unit × List Effect :=
  let extension := (splitext script_path).2
  let contents := w.readFile script_path
  let tempPath := w.tempBase ++ extension
  match renderTemplate context contents with
  | .error e => (.error e, [.tempCreated tempPath])
  | .ok output =>
    let r := run_script w.platform w.sysExecutable tempPath cwd w.launch
    (r.1, .tempCreated tempPath :: .tempWrote tempPath output :: r.2)

/-- `run_hook(hook_name, project_dir, context)`: look the hook up in the
freshly built registry; absent means a silent no-op, present means
templated execution from `project_dir`.  Errors from discovery,
rendering or execution propagate unchanged. -/
def run_hook (w : World) (hook_name project_dir : String)
    (context : List (String × String)) : Except PyError Unit × List Effect :=
  match find_hooks w.fs with
  | .error e => (.error e, [])
  | .ok r =>
    match dictGet r hook_name with
    | none => (.ok (), [])
    | some script => run_script_with_context w script project_dir context

/-! ### Concrete fixtures used by individual theorems below -/

/-- The specification-side predicate "`p` refers to a file of the
`hooks` directory that existed at discovery time", stated over the
directory listing the discovery call saw: some listed entry is a regular
file and `p` is its recorded absolute path. -/
def fileExistsAt (cwd : String) (entries : List FSEntry) (p : String) : Bool :=
  entries.any (fun ent => ent.isFile && p == hookPath cwd ent.name)

/-- A world whose only hook script consists of a single substitution
placeholder for the variable `foo`, run with an empty context, the
child process exiting cleanly. -/
def wUnbound : World :=
  { fs := ⟨true, .ok [⟨"pre_gen_project.py", true⟩], "/t"⟩
  , readFile := fun _ => [.var "foo"]
  , tempBase := "/tmp/tmpabc"
  , launch := fun _ => .launched 0
  , platform := "linux"
  , sysExecutable := "/usr/bin/python" }

/-- A world whose hook script contains a syntactically invalid template
fragment. -/
def wMalformed : World :=
  { fs := ⟨true, .ok [⟨"pre_gen_project.py", true⟩], "/t"⟩
  , readFile := fun _ => [.lit "echo hi", .malformed]
  , tempBase := "/tmp/tmpabc"
  , launch := fun _ => .launched 0
  , platform := "linux"
  , sysExecutable := "/usr/bin/python" }

/-- A world with no `hooks` subdirectory at all. -/
def wNoHooksDir : World :=
  { fs := ⟨false, .ok [], "/t"⟩
  , readFile := fun _ => []
  , tempBase := "/tmp/tmpabc"
  , launch := fun _ => .launched 0
  , platform := "linux"
  , sysExecutable := "/usr/bin/python" }

/-- A world whose `hooks` directory holds a single file whose stem,
`my_hook`, is not a recognized hook name. -/
def wUnknownHook : World :=
  { fs := ⟨true, .ok [⟨"my_hook.py", true⟩], "/t"⟩
  , readFile := fun _ => [.lit "echo hi"]
  , tempBase := "/tmp/tmpabc"
  , launch := fun _ => .launched 0
  , platform := "linux"
  , sysExecutable := "/usr/bin/python" }

/-- A file-system state where enumerating the `hooks` directory raises
`OSError` 13 (permission denied). -/
def fsListError : FS :=
  ⟨true, .error (.osError (some 13) "[Errno 13] Permission denied: 'hooks'"), "/t"⟩

/-- A file-system state whose `hooks` directory contains a single entry
named `pre_gen_project` that is a subdirectory, not a regular file. -/
def fsNonFileEntry : FS :=
  ⟨true, .ok [⟨"pre_gen_project", false⟩], "/t"⟩

/-! ### Helper lemmas -/

/-- Membership after a Python dict assignment: the pair was already
present, or it is the assigned binding. -/
theorem dictInsert_mem (d : List (String × String)) (k v : String) (kp : String × String)
    (h : kp ∈ dictInsert d k v) : kp ∈ d ∨ kp = (k, v) := by
  unfold dictInsert at h
  split at h
  · rcases List.mem_map.mp h with ⟨p, hp, he⟩
    by_cases hk : p.1 = k
    · right
      rw [if_pos hk] at he
      exact he.symm
    · left
      rw [if_neg hk] at he
      exact he ▸ hp
  · rcases List.mem_append.mp h with h1 | h2
    · exact .inl h1
    · right
      simpa using h2

/-- Every binding produced by the discovery loop either was in the
accumulator already or comes from a listed entry whose
extension-stripped base name is a recognized hook name, bound to that
entry's absolute path. -/
theorem registerHooks_mem (cwd : String) :
    ∀ (es : List FSEntry) (r0 : List (String × String)) (kp : String × String),
      kp ∈ registerHooks cwd es r0 →
      kp ∈ r0 ∨ ∃ ent ∈ es, (splitext (basename ent.name)).1 = kp.1
        ∧ kp.1 ∈ _HOOKS ∧ kp.2 = hookPath cwd ent.name
  | [], _, _, h => .inl h
  | ent :: es, r0, kp, h => by
    rcases registerHooks_mem cwd es _ kp h with h1 | ⟨e, he, hsp, hH, hp⟩
    · by_cases hb : (splitext (basename ent.name)).1 ∈ _HOOKS
      · rw [if_pos hb] at h1
        rcases dictInsert_mem _ _ _ _ h1 with h2 | h2
        · exact .inl h2
        · exact .inr ⟨ent, List.mem_cons_self .., by simp [h2, hb]⟩
      · rw [if_neg hb] at h1
        exact .inl h1
    · exact .inr ⟨e, List.mem_cons_of_mem _ he, hsp, hH, hp⟩

/-- A template containing a syntactically invalid fragment fails to
render, with a `TemplateError`. -/
theorem renderToks_malformed (ctx : List (String × String)) :
    ∀ ts : List Tok, Tok.malformed ∈ ts →
      renderToks ctx ts = .error (.templateError templateErrMsg)
  | .lit s :: ts, h => by
    have hm : Tok.malformed ∈ ts := by simpa using h
    show (renderToks ctx ts).map (fun r => s ++ r) = _
    rw [renderToks_malformed ctx ts hm]
    rfl
  | .var n :: ts, h => by
    have hm : Tok.malformed ∈ ts := by simpa using h
    show (renderToks ctx ts).map (fun r => (ctxLookup ctx n).getD "" ++ r) = _
    rw [renderToks_malformed ctx ts hm]
    rfl
  | .malformed :: _, _ => rfl

/-- Unfolding `stripTemplate` on a list of two or more elements. -/
theorem stripTemplate_cons_cons (t t2 : Tok) (ts : List Tok) :
    stripTemplate (t :: t2 :: ts) = t :: stripTemplate (t2 :: ts) := by
  simp [stripTemplate]

/-- Unfolding `stripTemplate` on a final literal chunk. -/
theorem stripTemplate_single_lit (s : String) :
    stripTemplate [Tok.lit s] = [Tok.lit (stripTrailingNewline s)] := by
  simp [stripTemplate]

/-- Unfolding `stripTemplate` on a final non-literal element. -/
theorem stripTemplate_single_var (n : String) :
    stripTemplate [Tok.var n] = [Tok.var n] := by
  simp [stripTemplate]

/-- The default trailing-newline strip does not remove an invalid
fragment from the template. -/
theorem malformed_mem_stripTemplate :
    ∀ ts : List Tok, Tok.malformed ∈ ts → Tok.malformed ∈ stripTemplate ts
  | [t], h => by
    cases t with
    | lit s => simp at h
    | var n => simp at h
    | malformed => simp [stripTemplate]
  | t :: t2 :: ts, h => by
    rw [stripTemplate_cons_cons]
    rcases List.mem_cons.mp h with h1 | h2
    · exact h1 ▸ List.mem_cons_self ..
    · exact List.mem_cons_of_mem _ (malformed_mem_stripTemplate _ h2)

/-- The generic launch-failure message never coincides with the
ENOEXEC message, whatever the wrapped description. -/
theorem launchErrorMsg_ne_shebangMsg (d : String) : launchErrorMsg d ≠ shebangMsg := by
  intro h
  have h2 := congrArg (fun s => s.data[18]?) h
  simp only [launchErrorMsg, shebangMsg, String.data_append, List.append_assoc] at h2
  rw [List.getElem?_append_left (by decide)] at h2
  exact absurd h2 (by decide)

/-! ### C2: exit-status handling -/

/-- C2: if the child process exits with status 0, `run_script` returns
normally; if it exits with any status `n ≠ 0`, `run_script` raises a
`FailedHookException` whose message includes the numeric status `n`. -/
theorem run_script_exit_status (platform sysExecutable script_path cwd : String)
    (launch : Launch → LaunchResult) :
    (launch (popenLaunch platform sysExecutable script_path cwd) = .launched 0 →
      (run_script platform sysExecutable script_path cwd launch).1 = .ok ())
    ∧ (∀ n : Int, n ≠ 0 →
        launch (popenLaunch platform sysExecutable script_path cwd) = .launched n →
        (run_script platform sysExecutable script_path cwd launch).1
            = .error (.failedHook (exitStatusMsg n))
        ∧ ∃ a b : String, exitStatusMsg n = a ++ toString n ++ b) := by
  constructor
  · intro h
    simp [run_script, h, run_scriptResult, EXIT_SUCCESS]
  · intro n hn h
    refine ⟨?_, "Hook script failed (exit status: ", ")", rfl⟩
    simp [run_script, h, run_scriptResult, EXIT_SUCCESS, hn]

/-- Witness for C2 at exit statuses 0 and 3. -/
theorem run_script_exit_status_witness :
    (run_script "linux" "/usr/bin/python" "/tmp/hook.sh" "/proj"
        (fun _ => .launched 0)).1 = .ok ()
    ∧ (run_script "linux" "/usr/bin/python" "/tmp/hook.sh" "/proj"
        (fun _ => .launched 3)).1
        = .error (.failedHook (exitStatusMsg 3))
    ∧ exitStatusMsg 3 = "Hook script failed (exit status: 3)" :=
  ⟨(run_script_exit_status "linux" "/usr/bin/python" "/tmp/hook.sh" "/proj"
      (fun _ => .launched 0)).1 rfl,
   ((run_script_exit_status "linux" "/usr/bin/python" "/tmp/hook.sh" "/proj"
      (fun _ => .launched 3)).2 3 (by decide) rfl).1,
   by decide⟩

/-! ### C3: launch-error handling -/

/-- C3: a launch failing with `errno.ENOEXEC` yields a failure whose
message says the script may be empty or missing a shebang; a launch
failing with any other OS error yields a failure wrapping the OS
error's description; and the two messages never coincide. -/
theorem run_script_launch_error (platform sysExecutable script_path cwd : String)
    (launch : Launch → LaunchResult) (eno : Option Nat) (desc : String) :
    (launch (popenLaunch platform sysExecutable script_path cwd)
        = .launchError (some ENOEXEC) desc →
      (run_script platform sysExecutable script_path cwd launch).1
        = .error (.failedHook shebangMsg))
    ∧ (eno ≠ some ENOEXEC →
        launch (popenLaunch platform sysExecutable script_path cwd)
          = .launchError eno desc →
        (run_script platform sysExecutable script_path cwd launch).1
          = .error (.failedHook (launchErrorMsg desc)))
    ∧ (∀ d : String, launchErrorMsg d ≠ shebangMsg) := by
  refine ⟨?_, ?_, launchErrorMsg_ne_shebangMsg⟩
  · intro h
    simp [run_script, h, run_scriptResult]
  · intro hne h
    simp [run_script, h, run_scriptResult, hne]

/-- Witness for C3: ENOEXEC (errno 8, e.g. an empty script) versus
EACCES (errno 13). -/
theorem run_script_launch_error_witness :
    (run_script "linux" "/usr/bin/python" "/tmp/empty_hook" "/proj"
        (fun _ => .launchError (some 8) "[Errno 8] Exec format error")).1
      = .error (.failedHook shebangMsg)
    ∧ (run_script "linux" "/usr/bin/python" "/tmp/hook.sh" "/proj"
        (fun _ => .launchError (some 13) "[Errno 13] Permission denied")).1
      = .error (.failedHook (launchErrorMsg "[Errno 13] Permission denied"))
    ∧ launchErrorMsg "[Errno 13] Permission denied" ≠ shebangMsg :=
  ⟨(run_script_launch_error "linux" "/usr/bin/python" "/tmp/empty_hook" "/proj"
      (fun _ => .launchError (some 8) "[Errno 8] Exec format error")
      (some 8) "[Errno 8] Exec format error").1 rfl,
   ((run_script_launch_error "linux" "/usr/bin/python" "/tmp/hook.sh" "/proj"
      (fun _ => .launchError (some 13) "[Errno 13] Permission denied")
      (some 13) "[Errno 13] Permission denied").2.1 (by decide) rfl),
   (run_script_launch_error "linux" "/usr/bin/python" "/tmp/hook.sh" "/proj"
      (fun _ => .launchError (some 13) "[Errno 13] Permission denied")
      (some 13) "[Errno 13] Permission denied").2.2 "[Errno 13] Permission denied"⟩

/-! ### C7: interpreter and shell selection -/

/-- C7: `run_script` launches exactly the command `popenLaunch` builds:
the runtime's interpreter with the script as argument exactly when the
path ends in `.py`, the bare script path otherwise; shell invocation
exactly on platforms whose name starts with `win`; the child runs in
the given working directory. -/
theorem run_script_command_selection (platform sysExecutable script_path cwd : String)
    (launch : Launch → LaunchResult) :
    (run_script platform sysExecutable script_path cwd launch).2
        = [.madeExecutable script_path,
           .launched (popenLaunch platform sysExecutable script_path cwd)]
    ∧ ((popenLaunch platform sysExecutable script_path cwd).command
          = [sysExecutable, script_path] ↔ endswith script_path ".py" = true)
    ∧ (endswith script_path ".py" = false →
        (popenLaunch platform sysExecutable script_path cwd).command = [script_path])
    ∧ (popenLaunch platform sysExecutable script_path cwd).shell
        = startswith platform "win"
    ∧ (popenLaunch platform sysExecutable script_path cwd).cwd = cwd := by
  refine ⟨rfl, ?_, ?_, rfl, rfl⟩ <;>
    cases h : endswith script_path ".py" <;> simp [popenLaunch, h]

/-- Witness for C7: a `.py` script on Linux and a `.bat` script on a
Windows platform. -/
theorem run_script_command_selection_witness :
    (popenLaunch "linux" "/usr/bin/python" "/tmp/hook.py" "/proj").command
        = ["/usr/bin/python", "/tmp/hook.py"]
    ∧ (popenLaunch "linux" "/usr/bin/python" "/tmp/hook.py" "/proj").shell = false
    ∧ (popenLaunch "win32" "python.exe" "/tmp/hook.bat" "/proj").command
        = ["/tmp/hook.bat"]
    ∧ (popenLaunch "win32" "python.exe" "/tmp/hook.bat" "/proj").shell = true :=
  ⟨(run_script_command_selection "linux" "/usr/bin/python" "/tmp/hook.py" "/proj"
      (fun _ => .launched 0)).2.1.mpr (by decide),
   by decide,
   (run_script_command_selection "win32" "python.exe" "/tmp/hook.bat" "/proj"
      (fun _ => .launched 0)).2.2.1 (by decide),
   by decide⟩

/-! ### C4: missing `hooks` directory -/

/-- C4: when the current working directory has no `hooks` subdirectory,
discovery returns the empty registry and `run_hook` is a no-op success
for every hook name: no error and no side effect. -/
theorem run_hook_no_hooks_dir (w : World) (hook_name project_dir : String)
    (context : List (String × String)) (h : w.fs.hooksIsDir = false) :
    find_hooks w.fs = .ok [] ∧ run_hook w hook_name project_dir context = (.ok (), []) := by
  have h1 : find_hooks w.fs = .ok [] := by simp [find_hooks, h]
  exact ⟨h1, by simp [run_hook, h1, dictGet]⟩

/-- Witness for C4: both recognized hook names in a world without a
`hooks` directory. -/
theorem run_hook_no_hooks_dir_witness :
    find_hooks wNoHooksDir.fs = .ok []
    ∧ run_hook wNoHooksDir "pre_gen_project" "/proj" [] = (.ok (), [])
    ∧ run_hook wNoHooksDir "post_gen_project" "/proj" [] = (.ok (), []) :=
  ⟨(run_hook_no_hooks_dir wNoHooksDir "pre_gen_project" "/proj" [] rfl).1,
   (run_hook_no_hooks_dir wNoHooksDir "pre_gen_project" "/proj" [] rfl).2,
   (run_hook_no_hooks_dir wNoHooksDir "post_gen_project" "/proj" [] rfl).2⟩

/-! ### C5: a single `pre_gen_project.py` hook -/

/-- C5: a `hooks` directory whose only entry is the file
`pre_gen_project.py` yields a registry with exactly one binding, keyed
`pre_gen_project`, whose value is that file's absolute path. -/
theorem find_hooks_single_pre_gen (cwd : String) :
    find_hooks ⟨true, .ok [⟨"pre_gen_project.py", true⟩], cwd⟩
      = .ok [("pre_gen_project", hookPath cwd "pre_gen_project.py")] := by
  have hb : (splitext (basename "pre_gen_project.py")).1 = "pre_gen_project" := rfl
  simp [find_hooks, registerHooks, hb, dictInsert, _HOOKS]

/-! ### C8: I/O error while enumerating the `hooks` directory -/

/-- C8 counterexample: when `os.listdir('hooks')` raises an `OSError`,
`find_hooks` propagates that `OSError` unchanged — it does not surface
the condition as the typed discovery failure the specification
describes. -/
theorem find_hooks_list_error_not_discovery :
    find_hooks fsListError
        = .error (.osError (some 13) "[Errno 13] Permission denied: 'hooks'")
    ∧ ¬ ∃ msg, find_hooks fsListError = .error (.discoveryError msg) := by
  refine ⟨rfl, ?_⟩
  rintro ⟨m, hm⟩
  rw [show find_hooks fsListError
      = .error (.osError (some 13) "[Errno 13] Permission denied: 'hooks'") from rfl] at hm
  simp at hm

/-- C8 as amended: an `OSError` raised while listing the `hooks`
directory propagates unchanged out of `find_hooks`. -/
theorem find_hooks_list_error_propagates (fs : FS) (e : PyError)
    (hdir : fs.hooksIsDir = true) (herr : fs.listHooks = .error e) :
    find_hooks fs = .error e := by
  simp [find_hooks, hdir, herr]

/-- Witness for C8 (amended) at a concrete permission-denied state. -/
theorem find_hooks_list_error_propagates_witness :
    find_hooks fsListError
      = .error (.osError (some 13) "[Errno 13] Permission denied: 'hooks'") :=
  find_hooks_list_error_propagates fsListError
    (.osError (some 13) "[Errno 13] Permission denied: 'hooks'") rfl rfl

/-! ### C9: registry entries and the entries of the directory -/

/-- C9 counterexample: a subdirectory of `hooks` named
`pre_gen_project` (not a regular file) is still recorded in the
registry, so a registry key can map to a path that does not refer to
any file of the directory. -/
theorem find_hooks_records_non_file :
    find_hooks fsNonFileEntry
        = .ok [("pre_gen_project", hookPath "/t" "pre_gen_project")]
    ∧ fileExistsAt "/t" [⟨"pre_gen_project", false⟩]
        (hookPath "/t" "pre_gen_project") = false :=
  ⟨rfl, rfl⟩

/-- C9 as amended: every registry binding comes from an entry that the
directory listing contained at discovery time — its key is the entry's
extension-stripped base name, a recognized hook name, and its value the
entry's absolute path — but the entry need not be a regular file. -/
theorem find_hooks_bindings_from_entries (fs : FS) (entries : List FSEntry)
    (r : List (String × String)) (hls : fs.listHooks = .ok entries)
    (hr : find_hooks fs = .ok r) :
    ∀ kp ∈ r, ∃ ent ∈ entries, (splitext (basename ent.name)).1 = kp.1
      ∧ kp.1 ∈ _HOOKS ∧ kp.2 = hookPath fs.cwd ent.name := by
  intro kp hkp
  by_cases hd : fs.hooksIsDir
  · have hr2 : r = registerHooks fs.cwd entries [] := by
      simp [find_hooks, hd, hls] at hr
      exact hr.symm
    rcases registerHooks_mem fs.cwd entries [] kp (hr2 ▸ hkp) with h0 | h1
    · simp at h0
    · exact h1
  · have hr2 : r = [] := by
      simp [find_hooks, hd] at hr
      exact hr
    rw [hr2] at hkp
    simp at hkp

/-- Witness for C9 (amended): the non-file `pre_gen_project` entry is
the origin of the single registry binding. -/
theorem find_hooks_bindings_from_entries_witness :
    ∃ ent ∈ [FSEntry.mk "pre_gen_project" false],
      (splitext (basename ent.name)).1 = "pre_gen_project"
      ∧ "pre_gen_project" ∈ _HOOKS
      ∧ hookPath "/t" "pre_gen_project" = hookPath "/t" ent.name :=
  find_hooks_bindings_from_entries fsNonFileEntry [⟨"pre_gen_project", false⟩]
    [("pre_gen_project", hookPath "/t" "pre_gen_project")] rfl rfl
    ("pre_gen_project", hookPath "/t" "pre_gen_project") (by simp)

/-! ### C10: unrecognized hook names -/

/-- C10: for a hook name outside the recognized set, `run_hook`
succeeds without rendering or executing anything, whatever the `hooks`
directory contains, because discovery never records an unrecognized
name (enumeration is assumed to succeed). -/
theorem run_hook_unrecognized_name (w : World) (hook_name project_dir : String)
    (context : List (String × String)) (entries : List FSEntry)
    (hn : hook_name ∉ _HOOKS) (hls : w.fs.listHooks = .ok entries) :
    run_hook w hook_name project_dir context = (.ok (), []) := by
  by_cases hd : w.fs.hooksIsDir
  · have hkeys : ∀ kp ∈ registerHooks w.fs.cwd entries [], kp.1 ∈ _HOOKS := by
      intro kp hkp
      rcases registerHooks_mem w.fs.cwd entries [] kp hkp with h0 | ⟨_, _, _, hH, _⟩
      · simp at h0
      · exact hH
    have hfind : (registerHooks w.fs.cwd entries []).find? (fun p => p.1 = hook_name)
        = none := by
      refine List.find?_eq_none.mpr ?_
      intro x hx
      simp only [decide_eq_true_eq]
      intro hxk
      exact hn (hxk ▸ hkeys x hx)
    have hget : dictGet (registerHooks w.fs.cwd entries []) hook_name = none := by
      unfold dictGet
      rw [hfind]
      rfl
    simp [run_hook, find_hooks, hd, hls, hget]
  · simp [run_hook, find_hooks, hd, dictGet]

/-- Witness for C10: a `hooks` directory containing `my_hook.py`, whose
stem is not a recognized hook name. -/
theorem run_hook_unrecognized_name_witness :
    run_hook wUnknownHook "my_hook" "/proj" [] = (.ok (), []) :=
  run_hook_unrecognized_name wUnknownHook "my_hook" "/proj" []
    [⟨"my_hook.py", true⟩] (by decide) rfl

/-! ### C1: template errors during `run_script_with_context` -/

/-- C1 counterexample: a hook script consisting of a single placeholder
for a variable that the context does not bind.  Rendering raises no
`TemplateError`: the default `jinja2.Undefined` renders as the empty
string, and the resulting script is executed successfully. -/
theorem run_script_with_context_unbound_no_error :
    Tok.var "foo" ∈ wUnbound.readFile "/t/hooks/pre_gen_project.py"
    ∧ ctxLookup [] "foo" = none
    ∧ renderTemplate [] (wUnbound.readFile "/t/hooks/pre_gen_project.py") = .ok ""
    ∧ (run_script_with_context wUnbound "/t/hooks/pre_gen_project.py" "/proj" []).1
        = .ok () :=
  ⟨by decide, rfl, rfl, rfl⟩

/-- C1 as amended: malformed template text raises a `TemplateError`
that propagates out of `run_script_with_context` with no child process
launched; but a reference to an unbound context variable raises
nothing — the placeholder simply contributes the empty string to the
rendered output. -/
theorem run_script_with_context_template_error (w : World) (script_path cwd : String)
    (context : List (String × String)) :
    (Tok.malformed ∈ w.readFile script_path →
      (run_script_with_context w script_path cwd context).1
          = .error (.templateError templateErrMsg)
      ∧ ∀ e ∈ (run_script_with_context w script_path cwd context).2,
          e.isLaunch = false)
    ∧ (∀ (n : String) (ts : List Tok), ctxLookup context n = none →
        renderToks context (.var n :: ts) = renderToks context ts) := by
  constructor
  · intro h
    have hr : renderTemplate context (w.readFile script_path)
        = .error (.templateError templateErrMsg) :=
      renderToks_malformed context _ (malformed_mem_stripTemplate _ h)
    constructor
    · simp [run_script_with_context, hr]
    · simp [run_script_with_context, hr, Effect.isLaunch]
  · intro n ts hn
    show (renderToks context ts).map (fun r => (ctxLookup context n).getD "" ++ r)
        = renderToks context ts
    rw [hn]
    cases hrt : renderToks context ts <;> simp [Except.map, String.empty_append]

/-- Witness for C1 (amended): a malformed script fails with the
template error, and an unbound placeholder contributes nothing. -/
theorem run_script_with_context_template_error_witness :
    (run_script_with_context wMalformed "/t/hooks/pre_gen_project.py" "/proj" []).1
        = .error (.templateError templateErrMsg)
    ∧ renderToks [] [Tok.var "foo"] = renderToks [] [] :=
  ⟨((run_script_with_context_template_error wMalformed
      "/t/hooks/pre_gen_project.py" "/proj" []).1 (by decide)).1,
   (run_script_with_context_template_error wMalformed
      "/t/hooks/pre_gen_project.py" "/proj" []).2 "foo" [] rfl⟩

/-! ### C6: substitution and idempotence of rendering -/

/-- C6 counterexample: rendering the placeholder-free text
`echo hi` followed by a newline returns it with the trailing newline
stripped, not unchanged. -/
theorem renderTemplate_strips_trailing_newline :
    renderTemplate [] [.lit "echo hi\n"] = .ok "echo hi"
    ∧ "echo hi" ≠ "echo hi\n" :=
  ⟨rfl, by decide⟩

/-- C6 as amended: a placeholder bound in the context is replaced by
the context value verbatim, and placeholder-free text is returned
unchanged — except that a single trailing newline of the template text,
if present, is stripped (Jinja's default `keep_trailing_newline=False`);
for template text not ending in a newline the output is exact. -/
theorem renderTemplate_substitution (ctx : List (String × String)) (n v a b t : String)
    (hv : ctxLookup ctx n = some v) (hb : endswith b "\n" = false)
    (ht : endswith t "\n" = false) :
    renderTemplate ctx [.lit a, .var n, .lit b] = .ok (a ++ v ++ b)
    ∧ renderTemplate ctx [.lit t] = .ok t := by
  have hsb : stripTrailingNewline b = b := by simp [stripTrailingNewline, hb]
  have hst : stripTrailingNewline t = t := by simp [stripTrailingNewline, ht]
  constructor
  · show renderToks ctx (stripTemplate [.lit a, .var n, .lit b]) = .ok (a ++ v ++ b)
    rw [stripTemplate_cons_cons, stripTemplate_cons_cons, stripTemplate_single_lit, hsb]
    simp [renderToks, Except.map, hv, String.append_empty, String.append_assoc]
  · show renderToks ctx (stripTemplate [.lit t]) = .ok t
    rw [stripTemplate_single_lit, hst]
    simp [renderToks, Except.map, String.append_empty]

/-- Witness for C6 (amended) at a concrete context and script. -/
theorem renderTemplate_substitution_witness :
    renderTemplate [("name", "world")] [.lit "hello ", .var "name", .lit "!"]
        = .ok "hello world!"
    ∧ renderTemplate [("name", "world")] [.lit "plain text"] = .ok "plain text" :=
  ⟨(renderTemplate_substitution [("name", "world")] "name" "world" "hello " "!"
      "plain text" rfl (by decide) (by decide)).1,
   (renderTemplate_substitution [("name", "world")] "name" "world" "hello " "!"
      "plain text" rfl (by decide) (by decide)).2⟩

end Hooks
